import Mathlib

/-!
Verification of the mindecho frontend signal pipeline.

The definitions below are shallow embeddings of the JavaScript source:
real numbers are modelled by rationals, JS objects with optional fields by
structures with `Option` fields, JS association objects by association
lists, and exception-throwing collaborators by explicit `Except` inputs
whose failure branch mirrors the empty `catch` blocks of the source.
-/

/-- The `clamp` helper of DashboardPro: `Math.max(a, Math.min(b, v))`. -/
def clamp (v a b : ℚ) : ℚ := max a (min b v)

/-- `mapAffectToValue` of DashboardPro: `raw = focus*1.25 + calm*0.9`,
clamped to `[-3,3]`; missing inputs default to 0. -/
def mapAffectToValue (calm focus : Option ℚ) : ℚ :=
  let raw := focus.getD 0 * 1.25 + calm.getD 0 * 0.9
  clamp raw (-3) 3

/-- The ordered threshold classifier inlined in `handleFaceSignal`:
`primary` starts at "neutral" and the first matching rule wins. -/
def classifyPrimary (calm focus : ℚ) : String :=
  if calm > 0.6 ∧ calm > focus then "calm"
  else if focus > 0.55 ∧ focus > calm then "focused"
  else if calm < 0.35 ∧ focus < 0.4 then "tense"
  else "neutral"

/-- `getTip` of DashboardPro; the final branch is the "stable" tip text. -/
def getTip (p : String) : String :=
  if p = "" then "Waiting for signals..."
  else if p = "calm" then "Calm - keep gentle breathing."
  else if p = "tense" then "Tension detected - try 4 slow breaths."
  else if p = "focused" then "Focused - short breaks extend flow."
  else "Stable - hydrate and blink."

/-- Claim C1: the primary-label classifier evaluates its ordered threshold
rules top to bottom with first match winning, matches the four quoted
examples, and never produces the label "stable". -/
theorem C1_classifier_rules (calm focus : ℚ)
    (hc : 0 ≤ calm ∧ calm ≤ 1) (hf : 0 ≤ focus ∧ focus ≤ 1) :
    (calm > 0.6 ∧ calm > focus → classifyPrimary calm focus = "calm") ∧
    (¬(calm > 0.6 ∧ calm > focus) ∧ (focus > 0.55 ∧ focus > calm) →
      classifyPrimary calm focus = "focused") ∧
    (¬(calm > 0.6 ∧ calm > focus) ∧ ¬(focus > 0.55 ∧ focus > calm) ∧
      (calm < 0.35 ∧ focus < 0.4) → classifyPrimary calm focus = "tense") ∧
    (¬(calm > 0.6 ∧ calm > focus) ∧ ¬(focus > 0.55 ∧ focus > calm) ∧
      ¬(calm < 0.35 ∧ focus < 0.4) → classifyPrimary calm focus = "neutral") ∧
    classifyPrimary calm focus ≠ "stable" ∧
    classifyPrimary 0.8 0.3 = "calm" ∧
    classifyPrimary 0.3 0.7 = "focused" ∧
    classifyPrimary 0.1 0.1 = "tense" ∧
    classifyPrimary 0.5 0.5 = "neutral" := by
  refine ⟨?_, ?_, ?_, ?_, ?_, by norm_num [classifyPrimary],
    by norm_num [classifyPrimary], by norm_num [classifyPrimary],
    by norm_num [classifyPrimary]⟩
  · intro h; simp [classifyPrimary, h]
  · intro ⟨h1, h2⟩; simp [classifyPrimary, h1, h2]
  · intro ⟨h1, h2, h3⟩; simp [classifyPrimary, h1, h2, h3]
  · intro ⟨h1, h2, h3⟩; simp [classifyPrimary, h1, h2, h3]
  · unfold classifyPrimary
    split_ifs <;> decide

/-- Witness for C1 at calm = 0.8, focus = 0.3. -/
theorem C1_classifier_rules_witness :
    classifyPrimary 0.8 0.3 = "calm" :=
  (C1_classifier_rules 0.8 0.3 (by norm_num) (by norm_num)).1 (by norm_num)

/-- Claim C2: the numeric trend value equals `focus*1.25 + calm*0.9`
clamped to `[-3,3]` with missing inputs defaulting to 0; at
calm = focus = 10 the raw value 21.5 is clamped to 3. -/
theorem C2_mapAffect (calm focus : Option ℚ) :
    mapAffectToValue calm focus
      = max (-3) (min 3 (focus.getD 0 * 1.25 + calm.getD 0 * 0.9)) ∧
    -3 ≤ mapAffectToValue calm focus ∧
    mapAffectToValue calm focus ≤ 3 ∧
    mapAffectToValue (some 10) (some 10) = 3 ∧
    (some 10 : Option ℚ).getD 0 * 1.25 + (some 10 : Option ℚ).getD 0 * 0.9
      = 21.5 ∧
    mapAffectToValue none none = 0 := by
  refine ⟨rfl, le_max_left _ _, ?_, by norm_num [mapAffectToValue, clamp],
    by norm_num, by norm_num [mapAffectToValue, clamp]⟩
  · unfold mapAffectToValue clamp
    exact max_le (by norm_num) (min_le_left _ _)

/-- A chart sample as pushed into `rawBuffer.current` by the producers. -/
structure Sample where
  ts : Nat
  value : ℚ
  time : String
  source : Option String
deriving DecidableEq

/-- State of the Signal Buffer: the staging queue `rawBuffer.current`
and the display window `signals`. -/
structure BufState where
  rawBuffer : List Sample
  signals : List Sample
deriving DecidableEq

/-- JS `array.slice(-n)`: the last `n` elements, kept in order. -/
def takeLastN {α : Type} (l : List α) (n : Nat) : List α :=
  (l.reverse.take n).reverse

/-- One RAF drain tick: when the staging queue is non-empty, splice the
first 4 samples off its head, append them to `signals`, keep the last
160 entries; when empty, do nothing. -/
def tick (st : BufState) : BufState :=
  if st.rawBuffer = [] then st
  else
    { rawBuffer := st.rawBuffer.drop 4
      signals := takeLastN (st.signals ++ st.rawBuffer.take 4) 160 }

/-- `rawBuffer.current.push(sample)` by a producer. -/
def pushSample (st : BufState) (s : Sample) : BufState :=
  { st with rawBuffer := st.rawBuffer ++ [s] }

/-- An event acting on the Signal Buffer: a producer insertion or a
drain tick. -/
inductive BufOp where
  | push (s : Sample)
  | drain
deriving DecidableEq

def applyOp (st : BufState) (op : BufOp) : BufState :=
  match op with
  | .push s => pushSample st s
  | .drain => tick st

/-- Run a sequence of buffer events from the initial empty state. -/
def runOps (ops : List BufOp) : BufState :=
  ops.foldl applyOp ⟨[], []⟩

/-- All samples inserted by the producers, in arrival order. -/
def pushedSamples (ops : List BufOp) : List Sample :=
  ops.filterMap (fun op => match op with | .push s => some s | .drain => none)

theorem take_append_take {α : Type} (xs ys : List α) (n : Nat) :
    (xs ++ ys.take n).take n = (xs ++ ys).take n := by
  rw [List.take_append_eq_append_take, List.take_append_eq_append_take,
    List.take_take, Nat.min_eq_left (Nat.sub_le n xs.length)]

theorem takeLastN_append {α : Type} (d t : List α) (n : Nat) :
    takeLastN (takeLastN d n ++ t) n = takeLastN (d ++ t) n := by
  unfold takeLastN
  rw [List.reverse_append, List.reverse_reverse, List.reverse_append,
    take_append_take]

theorem length_takeLastN {α : Type} (l : List α) (n : Nat) :
    (takeLastN l n).length ≤ n := by
  simp [takeLastN]

/-- The buffer invariant: the display window holds at most 160 samples,
and some drained prefix `d` of the pushed stream accounts for the whole
state: staged samples are exactly the rest of the stream, and the
window shows the most recent 160 drained samples in order. -/
def BufInv (st : BufState) (stream : List Sample) : Prop :=
  st.signals.length ≤ 160 ∧
  ∃ d, d ++ st.rawBuffer = stream ∧ st.signals = takeLastN d 160

theorem BufInv_applyOp (st : BufState) (p : List Sample) (op : BufOp)
    (h : BufInv st p) :
    BufInv (applyOp st op)
      (p ++ (match op with | .push s => [s] | .drain => [])) := by
  obtain ⟨hlen, d, hd, hs⟩ := h
  cases op with
  | push s =>
    refine ⟨hlen, d, ?_, hs⟩
    simp [applyOp, pushSample, ← hd, List.append_assoc]
  | drain =>
    simp only [applyOp, List.append_nil]
    by_cases hb : st.rawBuffer = []
    · exact ⟨by simp [tick, hb, hlen], d, by simpa [tick, hb] using hd,
        by simp [tick, hb, hs]⟩
    · have htick : tick st =
          { rawBuffer := st.rawBuffer.drop 4
            signals := takeLastN (st.signals ++ st.rawBuffer.take 4) 160 } := by
        unfold tick
        rw [if_neg hb]
      refine ⟨?_, d ++ st.rawBuffer.take 4, ?_, ?_⟩
      · rw [htick]
        exact length_takeLastN _ _
      · rw [htick, List.append_assoc, List.take_append_drop]
        exact hd
      · rw [htick, hs, takeLastN_append]

theorem BufInv_foldl (ops : List BufOp) : ∀ (st : BufState) (p : List Sample),
    BufInv st p → BufInv (ops.foldl applyOp st) (p ++ pushedSamples ops) := by
  induction ops with
  | nil =>
    intro st p h
    simpa [pushedSamples] using h
  | cons op rest ih =>
    intro st p h
    have h2 := ih (applyOp st op) _ (BufInv_applyOp st p op h)
    cases op with
    | push s => simpa [pushedSamples, List.append_assoc] using h2
    | drain => simpa [pushedSamples] using h2

/-- Claim C3: each drain tick removes up to 4 samples FIFO from the head
of the staging queue, appends them to the display window and keeps the
most recent 160; after any sequence of insertions and drains the window
holds at most 160 samples and is the most recent suffix of the drained
prefix of the pushed stream, in chronological order; a tick on an empty
staging queue changes nothing. -/
theorem C3_signal_buffer (ops : List BufOp) :
    (runOps ops).signals.length ≤ 160 ∧
    (∃ d, d ++ (runOps ops).rawBuffer = pushedSamples ops ∧
      (runOps ops).signals = takeLastN d 160) ∧
    (∀ st : BufState, st.rawBuffer = [] → tick st = st) ∧
    (∀ st : BufState, st.rawBuffer ≠ [] →
      (tick st).rawBuffer = st.rawBuffer.drop 4 ∧
      (tick st).signals = takeLastN (st.signals ++ st.rawBuffer.take 4) 160) := by
  have h0 : BufInv ⟨[], []⟩ [] :=
    ⟨by simp, [], by simp, by simp [takeLastN]⟩
  have h := BufInv_foldl ops ⟨[], []⟩ [] h0
  refine ⟨h.1, by simpa [runOps] using h.2, ?_, ?_⟩
  · intro st hst
    simp [tick, hst]
  · intro st hst
    simp [tick, hst]

/-- A concrete sample used by witnesses. -/
def sampleA : Sample := ⟨0, 1, "t0", none⟩

/-- Witness for C3: one insertion followed by one drain. -/
theorem C3_signal_buffer_witness :
    (runOps [BufOp.push sampleA, BufOp.drain]).signals.length ≤ 160 ∧
    (∃ d, d ++ (runOps [BufOp.push sampleA, BufOp.drain]).rawBuffer
        = pushedSamples [BufOp.push sampleA, BufOp.drain] ∧
      (runOps [BufOp.push sampleA, BufOp.drain]).signals = takeLastN d 160) ∧
    (∀ st : BufState, st.rawBuffer = [] → tick st = st) ∧
    (∀ st : BufState, st.rawBuffer ≠ [] →
      (tick st).rawBuffer = st.rawBuffer.drop 4 ∧
      (tick st).signals = takeLastN (st.signals ++ st.rawBuffer.take 4) 160) :=
  C3_signal_buffer [BufOp.push sampleA, BufOp.drain]

/-- JS `obj[k] ?? 0` on an association object. -/
def lookup0 (m : List (String × ℚ)) (k : String) : ℚ :=
  (m.lookup k).getD 0

/-- The key set built in `ema`:
`new Set([...Object.keys(prev), ...Object.keys(next)])`, which keeps
first-occurrence insertion order. -/
def emaKeys (prev next : List (String × ℚ)) : List String :=
  (prev.map Prod.fst ++ next.map Prod.fst).dedup

/-- The `ema` smoothing filter of FaceEmotionTracker:
`out[k] = alpha * (prev[k] ?? 0) + (1 - alpha) * (next[k] ?? 0)` for
every key of either object. -/
def ema (prev next : List (String × ℚ)) (alpha : ℚ) : List (String × ℚ) :=
  (emaKeys prev next).map fun k =>
    (k, alpha * lookup0 prev k + (1 - alpha) * lookup0 next k)

theorem lookup_map_mk {f : String → ℚ} {keys : List String} {k : String}
    (hk : k ∈ keys) :
    List.lookup k (keys.map fun k2 => (k2, f k2)) = some (f k) := by
  induction keys with
  | nil => cases hk
  | cons a t ih =>
    by_cases h : k = a
    · subst h
      simp [List.lookup_cons]
    · have hk2 : k ∈ t := by
        rcases List.mem_cons.mp hk with h1 | h1
        · exact absurd h1 h
        · exact h1
      have hba : (k == a) = false := beq_eq_false_iff_ne.mpr h
      simp only [List.map_cons, List.lookup_cons, hba]
      exact ih hk2

theorem lookup_eq_none_of_not_mem {m : List (String × ℚ)} {k : String}
    (h : k ∉ m.map Prod.fst) : m.lookup k = none := by
  induction m with
  | nil => rfl
  | cons a t ih =>
    obtain ⟨a1, a2⟩ := a
    simp only [List.map_cons, List.mem_cons, not_or] at h
    have hba : (k == a1) = false := beq_eq_false_iff_ne.mpr h.1
    rw [List.lookup_cons, hba]
    exact ih h.2

theorem map_fst_ema (prev next : List (String × ℚ)) (alpha : ℚ) :
    (ema prev next alpha).map Prod.fst = emaKeys prev next := by
  simp [ema, List.map_map, Function.comp_def]

/-- Claim C4: the EMA filter updates every key in the union of the two
key sets as `alpha * prev[k] + (1 - alpha) * next[k]` with missing keys
treated as 0, so a first-time key is blended against a 0 baseline. -/
theorem C4_ema_union (prev next : List (String × ℚ)) (alpha : ℚ) (k : String)
    (hk : k ∈ prev.map Prod.fst ++ next.map Prod.fst) :
    lookup0 (ema prev next alpha) k
      = alpha * lookup0 prev k + (1 - alpha) * lookup0 next k ∧
    (ema prev next alpha).map Prod.fst = emaKeys prev next ∧
    (k ∉ prev.map Prod.fst →
      lookup0 (ema prev next alpha) k = (1 - alpha) * lookup0 next k) := by
  have hk2 : k ∈ emaKeys prev next := by
    simpa [emaKeys, List.mem_dedup] using hk
  have h1 : lookup0 (ema prev next alpha) k
      = alpha * lookup0 prev k + (1 - alpha) * lookup0 next k := by
    simp [lookup0, ema, lookup_map_mk hk2]
  refine ⟨h1, map_fst_ema prev next alpha, ?_⟩
  intro hnp
  have h0 : lookup0 prev k = 0 := by
    simp [lookup0, lookup_eq_none_of_not_mem hnp]
  rw [h1, h0, mul_zero, zero_add]

/-- Witness for C4: key "fear" appears only in the new raw vector. -/
theorem C4_ema_union_witness :
    lookup0 (ema [("happiness", 1/2)] [("fear", 1/4)] (3/5)) "fear"
      = 3/5 * lookup0 [("happiness", 1/2)] "fear"
        + (1 - 3/5) * lookup0 [("fear", 1/4)] "fear" ∧
    (ema [("happiness", 1/2)] [("fear", 1/4)] (3/5)).map Prod.fst
      = emaKeys [("happiness", 1/2)] [("fear", 1/4)] ∧
    ("fear" ∉ ([(("happiness" : String), (1:ℚ)/2)].map Prod.fst) →
      lookup0 (ema [("happiness", 1/2)] [("fear", 1/4)] (3/5)) "fear"
        = (1 - 3/5) * lookup0 [("fear", 1/4)] "fear") :=
  C4_ema_union [("happiness", 1/2)] [("fear", 1/4)] (3/5) "fear" (by simp)

/-- The calm/anxious/focus signal emitted by `mapToSignalsAndEmit`. -/
structure Signal where
  calm : ℚ
  anxious : ℚ
  focus : ℚ
deriving DecidableEq

/-- The pure mapping of `mapToSignalsAndEmit` of FaceEmotionTracker from
the raw emotions object to the emitted calm/anxious/focus signal. -/
def mapToSignals (emotions : List (String × ℚ)) : Signal :=
  let happy := lookup0 emotions "happiness"
  let neutral := lookup0 emotions "neutral"
  let angry := lookup0 emotions "anger"
  let fear := lookup0 emotions "fear"
  let surprised := lookup0 emotions "surprised"
  let calmRaw := min 1 (happy * 0.7 + neutral * 0.6 - fear * 0.3)
  let anxiousRaw := min 1 (fear * 0.7 + surprised * 0.5 + angry * 0.4)
  let focusRaw := min 1 (neutral * 0.6 + (1 - surprised) * 0.3 + happy * 0.1)
  { calm := max 0 (min 1 calmRaw)
    anxious := max 0 (min 1 anxiousRaw)
    focus := max 0 (min 1 focusRaw) }

/-- The `/emotion` endpoint response as consumed by `sampleAndSend`:
`success` flag and an optional `emotions` JSON object. -/
structure EmotionApiResponse where
  success : Bool
  emotions : Option (List (String × ℚ))
deriving DecidableEq

/-- The `next` object built in `sampleAndSend` from `data.emotions`:
exactly the five tracked keys, each defaulted to 0. -/
def buildNext (emotions : List (String × ℚ)) : List (String × ℚ) :=
  [("happiness", lookup0 emotions "happiness"),
   ("neutral", lookup0 emotions "neutral"),
   ("sadness", lookup0 emotions "sadness"),
   ("anger", lookup0 emotions "anger"),
   ("fear", lookup0 emotions "fear")]

/-- The state-and-signal effect of one `sampleAndSend` response handling:
on `data.success && data.emotions` the smoothed vector becomes
`ema prev next smoothing` and `mapToSignalsAndEmit(next)` fires on the
unsmoothed `next`; otherwise nothing changes and nothing is emitted. -/
def sampleAndSend (smoothing : ℚ) (prev : List (String × ℚ))
    (resp : EmotionApiResponse) : List (String × ℚ) × Option Signal :=
  match resp.emotions with
  | some em =>
    if resp.success then
      let next := buildNext em
      (ema prev next smoothing, some (mapToSignals next))
    else (prev, none)
  | none => (prev, none)

/-- The initial `smoothed` state of FaceEmotionTracker. -/
def initialSmoothed : List (String × ℚ) :=
  [("happiness", 0), ("neutral", 0), ("sadness", 0), ("anger", 0),
   ("fear", 0)]

/-- Fold a sequence of endpoint responses through the smoothing filter,
starting from the initial all-zero smoothed vector. -/
def runUpdates (smoothing : ℚ) (resps : List EmotionApiResponse) :
    List (String × ℚ) :=
  resps.foldl (fun st r => (sampleAndSend smoothing st r).1) initialSmoothed

/-- Claim C5: on a successful filter update the emitted signal is a
function of the unsmoothed raw vector only - identical for any two
smoothed states - while the new displayed (smoothed) vector is the EMA
blend of the previous smoothed state with the raw vector. -/
theorem C5_emit_uses_raw (smoothing : ℚ) (prev1 prev2 : List (String × ℚ))
    (resp : EmotionApiResponse) (em : List (String × ℚ))
    (hs : resp.success = true) (he : resp.emotions = some em) :
    (sampleAndSend smoothing prev1 resp).2 = some (mapToSignals (buildNext em)) ∧
    (sampleAndSend smoothing prev2 resp).2 = (sampleAndSend smoothing prev1 resp).2 ∧
    (sampleAndSend smoothing prev1 resp).1 = ema prev1 (buildNext em) smoothing := by
  refine ⟨?_, ?_, ?_⟩ <;> simp [sampleAndSend, hs, he]

/-- Witness for C5 with a concrete response and two distinct previous
smoothed states. -/
theorem C5_emit_uses_raw_witness :
    (sampleAndSend (3/5) initialSmoothed ⟨true, some [("happiness", 1)]⟩).2
      = some (mapToSignals (buildNext [("happiness", 1)])) ∧
    (sampleAndSend (3/5) [("happiness", 1/2)] ⟨true, some [("happiness", 1)]⟩).2
      = (sampleAndSend (3/5) initialSmoothed ⟨true, some [("happiness", 1)]⟩).2 ∧
    (sampleAndSend (3/5) initialSmoothed ⟨true, some [("happiness", 1)]⟩).1
      = ema initialSmoothed (buildNext [("happiness", 1)]) (3/5) :=
  C5_emit_uses_raw (3/5) initialSmoothed [("happiness", 1/2)]
    ⟨true, some [("happiness", 1)]⟩ [("happiness", 1)] rfl rfl

/-- All values of an association object lie in the unit interval. -/
def valuesIn01 (m : List (String × ℚ)) : Prop :=
  ∀ kv ∈ m, 0 ≤ kv.2 ∧ kv.2 ≤ 1

theorem lookup0_bounds (m : List (String × ℚ)) (k : String) :
    valuesIn01 m → 0 ≤ lookup0 m k ∧ lookup0 m k ≤ 1 := by
  induction m with
  | nil =>
    intro _
    simp [lookup0]
  | cons a t ih =>
    intro h
    obtain ⟨a1, a2⟩ := a
    have ha := h (a1, a2) (List.mem_cons_self _ _)
    have ht : valuesIn01 t := fun kv hkv => h kv (List.mem_cons_of_mem _ hkv)
    cases hk : (k == a1) with
    | true =>
      simpa [lookup0, List.lookup_cons, hk] using ha
    | false =>
      simpa [lookup0, List.lookup_cons, hk] using ih ht

theorem ema_valuesIn01 {prev next : List (String × ℚ)} {alpha : ℚ}
    (h0 : 0 ≤ alpha) (h1 : alpha ≤ 1)
    (hp : valuesIn01 prev) (hn : valuesIn01 next) :
    valuesIn01 (ema prev next alpha) := by
  intro kv hkv
  simp only [ema, List.mem_map] at hkv
  obtain ⟨k, hk, rfl⟩ := hkv
  obtain ⟨hp0, hp1⟩ := lookup0_bounds prev k hp
  obtain ⟨hn0, hn1⟩ := lookup0_bounds next k hn
  have hA : (0:ℚ) ≤ 1 - alpha := by linarith
  constructor
  · show 0 ≤ alpha * lookup0 prev k + (1 - alpha) * lookup0 next k
    have := mul_nonneg h0 hp0
    have := mul_nonneg hA hn0
    linarith
  · show alpha * lookup0 prev k + (1 - alpha) * lookup0 next k ≤ 1
    have := mul_le_mul_of_nonneg_left hp1 h0
    have := mul_le_mul_of_nonneg_left hn1 hA
    linarith

theorem buildNext_valuesIn01 {em : List (String × ℚ)} (h : valuesIn01 em) :
    valuesIn01 (buildNext em) := by
  intro kv hkv
  simp only [buildNext, List.mem_cons, List.not_mem_nil, or_false] at hkv
  rcases hkv with rfl | rfl | rfl | rfl | rfl
  · exact lookup0_bounds em "happiness" h
  · exact lookup0_bounds em "neutral" h
  · exact lookup0_bounds em "sadness" h
  · exact lookup0_bounds em "anger" h
  · exact lookup0_bounds em "fear" h

theorem sampleAndSend_valuesIn01 {smoothing : ℚ} (h0 : 0 ≤ smoothing)
    (h1 : smoothing ≤ 1) {st : List (String × ℚ)} (hst : valuesIn01 st)
    (r : EmotionApiResponse)
    (hr : ∀ em, r.emotions = some em → valuesIn01 em) :
    valuesIn01 (sampleAndSend smoothing st r).1 := by
  cases he : r.emotions with
  | none => simpa [sampleAndSend, he] using hst
  | some em =>
    cases hs : r.success with
    | false => simpa [sampleAndSend, he, hs] using hst
    | true =>
      have hout : (sampleAndSend smoothing st r).1
          = ema st (buildNext em) smoothing := by
        simp [sampleAndSend, he, hs]
      rw [hout]
      exact ema_valuesIn01 h0 h1 hst (buildNext_valuesIn01 (hr em he))

theorem foldl_updates_valuesIn01 (smoothing : ℚ) (h0 : 0 ≤ smoothing)
    (h1 : smoothing ≤ 1) (resps : List EmotionApiResponse) :
    ∀ st : List (String × ℚ), valuesIn01 st →
    (∀ r ∈ resps, ∀ em, r.emotions = some em → valuesIn01 em) →
    valuesIn01
      (resps.foldl (fun st2 r => (sampleAndSend smoothing st2 r).1) st) := by
  induction resps with
  | nil =>
    intro st hst _
    simpa using hst
  | cons r rest ih =>
    intro st hst hr
    have hr1 : ∀ em, r.emotions = some em → valuesIn01 em :=
      fun em he => hr r (List.mem_cons_self _ _) em he
    have hstep := sampleAndSend_valuesIn01 h0 h1 hst r hr1
    exact ih _ hstep (fun r2 hr2 => hr r2 (List.mem_cons_of_mem _ hr2))

theorem initialSmoothed_valuesIn01 : valuesIn01 initialSmoothed := by
  intro kv hkv
  simp only [initialSmoothed, List.mem_cons, List.not_mem_nil, or_false] at hkv
  rcases hkv with rfl | rfl | rfl | rfl | rfl <;> norm_num

theorem max0min1_bounds (x : ℚ) : 0 ≤ max 0 (min 1 x) ∧ max 0 (min 1 x) ≤ 1 :=
  ⟨le_max_left _ _, max_le (by norm_num) (min_le_left _ _)⟩

/-- Claim C6: after any sequence of filter updates whose raw emotion
values lie in the unit interval, every component of the smoothed vector
lies in the unit interval; the clamping to the unit interval lives in
the mapping (whose outputs are always clamped), not in the filter
(whose output can leave the unit interval when its inputs do). -/
theorem C6_smoothed_within_unit (smoothing : ℚ)
    (resps : List EmotionApiResponse)
    (h0 : 0 ≤ smoothing) (h1 : smoothing ≤ 1)
    (hr : ∀ r ∈ resps, ∀ em, r.emotions = some em →
      ∀ kv ∈ em, 0 ≤ kv.2 ∧ kv.2 ≤ 1) :
    (∀ kv ∈ runUpdates smoothing resps, 0 ≤ kv.2 ∧ kv.2 ≤ 1) ∧
    (∀ em : List (String × ℚ),
      (0 ≤ (mapToSignals em).calm ∧ (mapToSignals em).calm ≤ 1) ∧
      (0 ≤ (mapToSignals em).anxious ∧ (mapToSignals em).anxious ≤ 1) ∧
      (0 ≤ (mapToSignals em).focus ∧ (mapToSignals em).focus ≤ 1)) ∧
    (∃ p n : List (String × ℚ),
      1 < lookup0 (ema p n smoothing) "happiness") := by
  refine ⟨?_, ?_, ?_⟩
  · exact foldl_updates_valuesIn01 smoothing h0 h1 resps initialSmoothed
      initialSmoothed_valuesIn01 hr
  · intro em
    exact ⟨max0min1_bounds _, max0min1_bounds _, max0min1_bounds _⟩
  · refine ⟨[("happiness", 2)], [("happiness", 2)], ?_⟩
    have hk : "happiness" ∈ emaKeys [("happiness", (2:ℚ))] [("happiness", 2)] := by
      simp [emaKeys]
    have hv : lookup0 (ema [("happiness", 2)] [("happiness", 2)] smoothing)
        "happiness"
        = smoothing * lookup0 [("happiness", (2:ℚ))] "happiness"
          + (1 - smoothing) * lookup0 [("happiness", (2:ℚ))] "happiness" := by
      simp [lookup0, ema, lookup_map_mk hk]
    have hl : lookup0 [("happiness", (2:ℚ))] "happiness" = 2 := by
      simp [lookup0, List.lookup_cons]
    rw [hv, hl]
    linarith

/-- Witness for C6 with smoothing 3/5 and one successful response. -/
theorem C6_smoothed_within_unit_witness :
    (∀ kv ∈ runUpdates (3/5)
        [EmotionApiResponse.mk true (some [("happiness", 1/2)])],
      0 ≤ kv.2 ∧ kv.2 ≤ 1) ∧
    (∀ em : List (String × ℚ),
      (0 ≤ (mapToSignals em).calm ∧ (mapToSignals em).calm ≤ 1) ∧
      (0 ≤ (mapToSignals em).anxious ∧ (mapToSignals em).anxious ≤ 1) ∧
      (0 ≤ (mapToSignals em).focus ∧ (mapToSignals em).focus ≤ 1)) ∧
    (∃ p n : List (String × ℚ),
      1 < lookup0 (ema p n (3/5)) "happiness") :=
  C6_smoothed_within_unit (3/5)
    [EmotionApiResponse.mk true (some [("happiness", 1/2)])]
    (by norm_num) (by norm_num)
    (by
      intro r hr em he kv hkv
      rw [List.mem_singleton] at hr
      subst hr
      simp only [Option.some.injEq] at he
      subst he
      rw [List.mem_singleton] at hkv
      subst hkv
      norm_num)

/-- A chat message of the ChatBot message list. -/
structure ChatMsg where
  role : String
  text : String
deriving DecidableEq

/-- The transcription response of `POST /api/voice` (multipart mode). -/
structure TransResp where
  success : Bool
  transcript : Option String
  error : Option String
deriving DecidableEq

/-- The reply response of `POST /api/voice` (JSON mode). -/
structure ReplyResp where
  success : Bool
  replyText : Option String
  audioBase64 : Option String
  error : Option String
deriving DecidableEq

/-- JS `x || d` for an optional string: the default is used when the
value is absent or the empty string. -/
def orDefault (s : Option String) (d : String) : String :=
  match s with
  | none => d
  | some e => if e = "" then d else e

/-- `handleAudioFlow` of ChatBot as a pure function over the message
list and the two endpoint responses (`none` models a null body or a
thrown fetch); returns the new message list and whether the second
(reply) call was issued. -/
def handleAudioFlow (messages : List ChatMsg) (transResp : Option TransResp)
    (textResp : Option ReplyResp) : List ChatMsg × Bool :=
  match transResp with
  | none => (messages ++ [⟨"assistant", "Could not transcribe audio."⟩], false)
  | some tr =>
    if tr.success = false then
      (messages ++
        [⟨"assistant", orDefault tr.error "Could not transcribe audio."⟩],
       false)
    else
      let transcript := tr.transcript.getD ""
      if transcript = "" then
        (messages ++ [⟨"assistant", "No speech recognized."⟩], false)
      else
        let m1 := messages ++ [⟨"user", transcript⟩]
        match textResp with
        | none => (m1 ++ [⟨"assistant", "Assistant failed to respond."⟩], true)
        | some rr =>
          if rr.success = false then
            (m1 ++
              [⟨"assistant", orDefault rr.error "Assistant failed to respond."⟩],
             true)
          else
            (m1 ++ [⟨"assistant", rr.replyText.getD "(no reply text)"⟩], true)

/-- Claim C7: a missing or failed transcription response appends exactly
one assistant message (the server error or the fallback text) and never
issues the reply call; an empty transcript appends exactly one
assistant message "No speech recognized." and never issues the reply
call. -/
theorem C7_transcription_failure (messages : List ChatMsg)
    (transResp : Option TransResp) (textResp : Option ReplyResp) :
    (transResp = none →
      handleAudioFlow messages transResp textResp
        = (messages ++ [⟨"assistant", "Could not transcribe audio."⟩], false)) ∧
    (∀ tr, transResp = some tr → tr.success = false →
      handleAudioFlow messages transResp textResp
        = (messages ++
            [⟨"assistant", orDefault tr.error "Could not transcribe audio."⟩],
           false)) ∧
    (∀ tr, transResp = some tr → tr.success = true →
      tr.transcript.getD "" = "" →
      handleAudioFlow messages transResp textResp
        = (messages ++ [⟨"assistant", "No speech recognized."⟩], false)) := by
  refine ⟨?_, ?_, ?_⟩
  · intro h
    subst h
    rfl
  · intro tr h hs
    subst h
    simp [handleAudioFlow, hs]
  · intro tr h hs ht
    subst h
    simp [handleAudioFlow, hs, ht]

/-- Witness for C7: a failed transcription and an empty transcript. -/
theorem C7_transcription_failure_witness :
    handleAudioFlow [] (some (TransResp.mk false none (some "boom"))) none
      = ([⟨"assistant", "boom"⟩], false) ∧
    handleAudioFlow [] (some (TransResp.mk true (some "") none)) none
      = ([⟨"assistant", "No speech recognized."⟩], false) := by
  constructor
  · have h := (C7_transcription_failure []
      (some (TransResp.mk false none (some "boom"))) none).2.1
      (TransResp.mk false none (some "boom")) rfl rfl
    simpa [orDefault] using h
  · have h := (C7_transcription_failure []
      (some (TransResp.mk true (some "") none)) none).2.2
      (TransResp.mk true (some "") none) rfl rfl rfl
    simpa using h

/-- JS `String.prototype.trim()`: drop leading and trailing whitespace. -/
def jsTrim (s : String) : String :=
  String.mk
    (((s.data.dropWhile Char.isWhitespace).reverse.dropWhile
        Char.isWhitespace).reverse)

/-- The sleep-timing store: the persisted value under the storage key
(`none` models an absent key) and the in-memory `sleepTiming` state. -/
structure SleepStore where
  storage : Option String
  mem : String
deriving DecidableEq

/-- `saveSleepTiming` of DashboardPro: a falsy (empty) value removes the
key and clears the state; any other value is stored as given. -/
def saveSleepTiming (st : SleepStore) (val : String) : SleepStore :=
  if val = "" then { storage := none, mem := "" }
  else { storage := some val, mem := val }

/-- The `sleepTiming` read, as in the `useState` initializer:
`localStorage.getItem(SLEEP_KEY) || ""`. -/
def getSleepTiming (st : SleepStore) : String :=
  match st.storage with
  | none => ""
  | some s => if s = "" then "" else s

/-- Counterexample to C8 as stated: `saveSleepTiming` stores a non-empty
value exactly as given, so with the untrimmed input " 23:00 " a
subsequent get returns " 23:00 ", not the trimmed string "23:00";
trimming happens in the caller `onSetSleepTiming`, not in the store. -/
theorem C8_counterexample :
    getSleepTiming (saveSleepTiming (SleepStore.mk none "") " 23:00 ")
      = " 23:00 " ∧
    jsTrim " 23:00 " = "23:00" ∧
    getSleepTiming (saveSleepTiming (SleepStore.mk none "") " 23:00 ")
      ≠ jsTrim " 23:00 " := by
  refine ⟨rfl, by decide, by decide⟩

/-- Claim C8 amended: `saveSleepTiming` with a non-empty value stores
the string exactly as given (its only caller trims beforehand) and
updates the in-memory state, so a subsequent get returns that exact
string; with an empty value it deletes the key and clears the state, so
a subsequent get returns empty. -/
theorem C8_sleep_roundtrip (st : SleepStore) (val : String) :
    (val ≠ "" →
      saveSleepTiming st val = SleepStore.mk (some val) val ∧
      getSleepTiming (saveSleepTiming st val) = val) ∧
    (saveSleepTiming st "" = SleepStore.mk none "" ∧
      getSleepTiming (saveSleepTiming st "") = "") ∧
    getSleepTiming (saveSleepTiming st "23:00-07:00") = "23:00-07:00" := by
  refine ⟨?_, ⟨rfl, rfl⟩, ?_⟩
  · intro hv
    constructor
    · simp [saveSleepTiming, hv]
    · simp [saveSleepTiming, getSleepTiming, hv]
  · simp [saveSleepTiming, getSleepTiming]

/-- Witness for C8 at the quoted example "23:00-07:00". -/
theorem C8_sleep_roundtrip_witness :
    saveSleepTiming (SleepStore.mk none "") "23:00-07:00"
      = SleepStore.mk (some "23:00-07:00") "23:00-07:00" ∧
    getSleepTiming
        (saveSleepTiming (SleepStore.mk none "") "23:00-07:00")
      = "23:00-07:00" :=
  (C8_sleep_roundtrip (SleepStore.mk none "") "23:00-07:00").1 (by decide)

/-- The `neuro` field of a simulated sensor sample; alpha/beta may be
null. -/
structure NeuroData where
  alpha : Option ℚ
  beta : Option ℚ
deriving DecidableEq

/-- A sample delivered by `sensorSimulator.on("signals")`. -/
structure SensorSample where
  neuro : Option NeuroData
deriving DecidableEq

/-- The chart value derived in the sensor handler:
`neuro && neuro.alpha != null && neuro.beta != null ? alpha - beta : 0`. -/
def neuroVal (s : SensorSample) : ℚ :=
  match s.neuro with
  | some n =>
    match n.alpha, n.beta with
    | some a, some b => a - b
    | _, _ => 0
  | none => 0

/-- The raw result of `inferenceService.inferEmotion`. -/
structure InferRaw where
  primary : Option String
  calm : Option ℚ
  focus : Option ℚ
deriving DecidableEq

/-- The normalized emotion UI state. -/
structure EmotionState where
  primary : String
  calm : ℚ
  focus : ℚ
deriving DecidableEq

/-- The normalization applied to the inference result in the sensor
handler: `primary || "neutral"`, scores defaulted to 0. -/
def normalizeInfer (emRaw : InferRaw) : EmotionState :=
  { primary := orDefault emRaw.primary "neutral"
    calm := emRaw.calm.getD 0
    focus := emRaw.focus.getD 0 }

/-- Dashboard state touched by the two producers. -/
structure DashState where
  emotion : EmotionState
  tip : String
  rawBuffer : List Sample
deriving DecidableEq

/-- The `sensorSimulator.on("signals")` handler: guards on
running/paused, swallows an inference exception (only the emotion and
tip update is lost), always pushes the neuro-derived sample, and
swallows a `simulatePush` exception after the push. -/
def sensorHandler (running paused : Bool) (s : SensorSample) (now : Nat)
    (time : String) (inferResult : Except Unit (Option InferRaw))
    (pushResult : Except Unit Unit) (st : DashState) : DashState :=
  if running = false ∨ paused = true then st
  else
    let st1 :=
      match inferResult with
      | .error _ => st
      | .ok none => st
      | .ok (some emRaw) =>
        let normalized := normalizeInfer emRaw
        { st with emotion := normalized, tip := getTip normalized.primary }
    let st2 := { st1 with
      rawBuffer := st1.rawBuffer ++ [Sample.mk now (neuroVal s) time none] }
    match pushResult with
    | .error _ => st2
    | .ok _ => st2

/-- The camera-driven signal delivered to `handleFaceSignal`. -/
structure FaceSignal where
  calm : Option ℚ
  focus : Option ℚ
deriving DecidableEq

/-- `handleFaceSignal` of DashboardPro: classify, update emotion and
tip, push the mapped sample, then swallow a `simulatePush` exception. -/
def handleFaceSignal (sig : Option FaceSignal) (now : Nat) (time : String)
    (pushResult : Except Unit Unit) (st : DashState) : DashState :=
  match sig with
  | none => st
  | some sg =>
    let calm := sg.calm.getD 0
    let focus := sg.focus.getD 0
    let primary := classifyPrimary calm focus
    let st1 := { st with emotion := EmotionState.mk primary calm focus
                         tip := getTip primary }
    let mapped := mapAffectToValue (some calm) (some focus)
    let st2 := { st1 with
      rawBuffer := st1.rawBuffer ++ [Sample.mk now mapped time (some "camera")] }
    match pushResult with
    | .error _ => st2
    | .ok _ => st2

/-- The initial dashboard state. -/
def dashInit : DashState :=
  { emotion := EmotionState.mk "neutral" 0 0
    tip := "Waiting for signals..."
    rawBuffer := [] }

/-- Counterexample to C9 as stated: with both the inference call and the
push-to-backend call throwing, the sensor handler still enqueues the
sample - the staging queue grows from 0 to 1 entries - so a failed
sample is not dropped. -/
theorem C9_counterexample :
    (sensorHandler true false
        (SensorSample.mk (some (NeuroData.mk (some 1) (some 0))))
        0 "t" (Except.error ()) (Except.error ()) dashInit).rawBuffer.length
      = 1 ∧
    dashInit.rawBuffer.length = 0 := by
  constructor
  · simp [sensorHandler, dashInit]
  · rfl

/-- Claim C9 amended: producer exceptions during inference or
push-to-backend are caught and swallowed per-sample and ingestion
continues, but the sample is still enqueued: an inference exception
only skips the emotion/tip update, and the push-to-backend call runs
after the enqueue in both producer paths, so its failure never removes
the sample. -/
theorem C9_swallowed_but_enqueued (paused : Bool) (s : SensorSample)
    (now : Nat) (time : String) (inferResult : Except Unit (Option InferRaw))
    (pr1 pr2 : Except Unit Unit) (st : DashState) (hp : paused = false) :
    (sensorHandler true paused s now time inferResult pr1 st).rawBuffer
      = st.rawBuffer ++ [Sample.mk now (neuroVal s) time none] ∧
    sensorHandler true paused s now time inferResult pr1 st
      = sensorHandler true paused s now time inferResult pr2 st ∧
    (inferResult = Except.error () →
      (sensorHandler true paused s now time inferResult pr1 st).emotion
        = st.emotion ∧
      (sensorHandler true paused s now time inferResult pr1 st).tip
        = st.tip) ∧
    (∀ sg : FaceSignal,
      handleFaceSignal (some sg) now time pr1 st
        = handleFaceSignal (some sg) now time pr2 st ∧
      (handleFaceSignal (some sg) now time pr1 st).rawBuffer
        = st.rawBuffer ++
          [Sample.mk now
            (mapAffectToValue (some (sg.calm.getD 0)) (some (sg.focus.getD 0)))
            time (some "camera")]) := by
  subst hp
  refine ⟨?_, ?_, ?_, ?_⟩
  · rcases inferResult with e | o
    · cases pr1 <;> simp [sensorHandler]
    · rcases o with _ | emRaw <;> cases pr1 <;> simp [sensorHandler]
  · rcases inferResult with e | o
    · cases pr1 <;> cases pr2 <;> simp [sensorHandler]
    · rcases o with _ | emRaw <;> cases pr1 <;> cases pr2 <;>
        simp [sensorHandler]
  · intro hir
    subst hir
    cases pr1 <;> simp [sensorHandler]
  · intro sg
    constructor
    · cases pr1 <;> cases pr2 <;> simp [handleFaceSignal]
    · cases pr1 <;> simp [handleFaceSignal]

/-- Witness for C9 with the concrete failing inputs of the
counterexample. -/
theorem C9_swallowed_but_enqueued_witness :
    (sensorHandler true false
        (SensorSample.mk (some (NeuroData.mk (some 1) (some 0))))
        0 "t" (Except.error ()) (Except.error ()) dashInit).rawBuffer
      = dashInit.rawBuffer ++
        [Sample.mk 0
          (neuroVal (SensorSample.mk (some (NeuroData.mk (some 1) (some 0)))))
          "t" none] :=
  (C9_swallowed_but_enqueued false
    (SensorSample.mk (some (NeuroData.mk (some 1) (some 0))))
    0 "t" (Except.error ()) (Except.error ()) (Except.ok ()) dashInit rfl).1

/-- Component state of the ChatBot touched by `sendText`. -/
structure ChatState where
  messages : List ChatMsg
  input : String
  loading : Bool
deriving DecidableEq

/-- `sendText` of ChatBot as a pure function: the typed text (or
`none` for a null value), the outcome of the reply call (`Except.error`
models a thrown fetch, `Except.ok none` a null body), and the component
state; returns the new state and whether a network request was
issued. -/
def sendText (txt : Option String) (rr : Except Unit (Option ReplyResp))
    (st : ChatState) : ChatState × Bool :=
  match txt with
  | none => (st, false)
  | some t =>
    if jsTrim t = "" then (st, false)
    else
      let text := jsTrim t
      let m1 := st.messages ++ [ChatMsg.mk "user" text]
      match rr with
      | .error _ =>
        ({ messages := m1 ++ [ChatMsg.mk "assistant" "Failed to reach assistant."]
           input := ""
           loading := false }, true)
      | .ok none =>
        ({ messages := m1 ++ [ChatMsg.mk "assistant" "Assistant error."]
           input := ""
           loading := false }, true)
      | .ok (some r) =>
        if r.success = false then
          ({ messages := m1 ++
              [ChatMsg.mk "assistant" (orDefault r.error "Assistant error.")]
             input := ""
             loading := false }, true)
        else
          ({ messages := m1 ++
              [ChatMsg.mk "assistant" (r.replyText.getD "(no reply text)")]
             input := ""
             loading := false }, true)

/-- Claim C10: calling `sendText` with a missing, empty or
whitespace-only string changes no state, appends no message, and issues
no network request. -/
theorem C10_sendText_noop (txt : Option String)
    (rr : Except Unit (Option ReplyResp)) (st : ChatState)
    (h : txt = none ∨ ∃ t, txt = some t ∧ jsTrim t = "") :
    sendText txt rr st = (st, false) := by
  rcases h with h | ⟨t, rfl, ht⟩
  · subst h
    rfl
  · simp [sendText, ht]

/-- Witness for C10 on a whitespace-only input. -/
theorem C10_sendText_noop_witness :
    sendText (some "   ") (Except.ok none) (ChatState.mk [] "" false)
      = (ChatState.mk [] "" false, false) :=
  C10_sendText_noop (some "   ") (Except.ok none) (ChatState.mk [] "" false)
    (Or.inr ⟨"   ", rfl, by decide⟩)
